import Mathlib

/-!
# Shallow embedding of the PyLinks API clients

This file embeds, in Lean, the parts of the PyLinks repository
(`src/pylinks/api/github.py` and `src/pylinks/api/doi.py`) that the
verified properties are about:

* the pagination loops of `Repo.branches`, `Repo.labels`,
  `Repo.issue_labels`, `Repo.pull_list` and `Repo.issue_comments`;
* the payload assembly of `Repo.issue_update` and `Repo.pull_merge`;
* the argument validation of `Repo.repo_topics_replace` and
  `Repo.label_create` (via `Repo._validate_label_data`);
* `GitHub.graphql_mutation`'s handling of the decoded GraphQL response;
* the header/`authenticated` logic of `GitHub.__init__`;
* the DOI-identifier parsing of `DOI.__init__`.

Modelling conventions:

* Python strings are Lean `String`s (or `List Char` where character-level
  regex reasoning is needed); Python `None`-able arguments are `Option`s.
* A fallible Python callable is a Lean function into `Except ε _`; a raised
  exception is `Except.error`.
* The HTTP transport (`Repo._rest_query`, which prefixes
  `repos/{owner}/{repo}/` and delegates to `pylinks.request`) is an external
  collaborator: the loops are parameterised by a function
  `rq : String → Except ε (List α)` mapping the operation-level query string
  to the decoded page (or a raised failure), exactly as the loops consume it.
* Operations that issue a request return the request they would issue
  (verb, query, payload); a validation failure returns `Except.error`
  instead, i.e. no request value is produced.
* The unbounded Python `while True` loops are embedded with explicit fuel;
  `none` means the fuel was exhausted before the loop ended.
-/

namespace PyLinks

/-- Python exception classes raised by the validated code paths
(exception messages are elided; only the class is modelled). -/
inductive PyErr where
  | typeError
  | valueError
  | keyError
deriving DecidableEq

/-- The list `[page, page + 1, ..., page + d - 1]` of `d` consecutive page
indices starting at `page`. -/
def pageList (page : Nat) : Nat → List Nat
  | 0 => []
  | d + 1 => page :: pageList (page + 1) d

theorem pageList_length (page d : Nat) : (pageList page d).length = d := by
  induction d generalizing page with
  | zero => rfl
  | succ d ih => simp [pageList, ih]

theorem pageList_succ_append (page d : Nat) :
    pageList page (d + 1) = pageList page d ++ [page + d] := by
  induction d generalizing page with
  | zero => simp [pageList]
  | succ d ih =>
    rw [pageList, ih]
    simp [pageList]
    omega

/-- The pagination loop shared verbatim by `Repo.branches`, `Repo.labels`,
`Repo.issue_labels` and `Repo.pull_list`:

    items = []
    page = 1
    while True:
        response = self._rest_query(q(page))
        items.extend(response)
        page += 1
        if len(response) < 100:
            break
    return items

`rq` models `Repo._rest_query` (it may raise, hence `Except ε`), `q page` is
the query string the operation builds for a page, and `fuel` bounds the
number of iterations of the otherwise partial `while True` loop.  Besides the
accumulated items the embedding returns the log of query strings issued, in
order, so that theorems can speak about which requests were made. -/
def paginate {ε α : Type} (rq : String → Except ε (List α)) (q : Nat → String) :
    Nat → Nat → List α → List String → Option (Except ε (List α × List String))
  | 0, _, _, _ => none
  | fuel + 1, page, acc, log =>
    match rq (q page) with
    | Except.error e => some (Except.error e)
    | Except.ok resp =>
      if resp.length < 100 then some (Except.ok (acc ++ resp, log ++ [q page]))
      else paginate rq q fuel (page + 1) (acc ++ resp) (log ++ [q page])

namespace Repo

/-- Query string built by `Repo.branches` for one page:
`f"branches?per_page=100&page={page}"`. -/
def branchesQ (page : Nat) : String :=
  "branches?per_page=100&page=" ++ toString page

/-- Embedding of `Repo.branches` (github.py lines 184-192). -/
def branches {ε α : Type} (rq : String → Except ε (List α)) (fuel : Nat) :
    Option (Except ε (List α × List String)) :=
  paginate rq branchesQ fuel 1 [] []

/-- Query string built by `Repo.labels` for one page:
`f"labels?per_page=100&page={page}"`. -/
def labelsQ (page : Nat) : String :=
  "labels?per_page=100&page=" ++ toString page

/-- Embedding of `Repo.labels` (github.py lines 234-242). -/
def labels {ε α : Type} (rq : String → Except ε (List α)) (fuel : Nat) :
    Option (Except ε (List α × List String)) :=
  paginate rq labelsQ fuel 1 [] []

/-- Query string built by `Repo.issue_labels` for one page:
`f"issues/{number}/labels?per_page=100&page={page}"`. -/
def issueLabelsQ (number page : Nat) : String :=
  "issues/" ++ toString number ++ "/labels?per_page=100&page=" ++ toString page

/-- Embedding of `Repo.issue_labels` (github.py lines 478-487). -/
def issue_labels {ε α : Type} (rq : String → Except ε (List α))
    (number fuel : Nat) : Option (Except ε (List α × List String)) :=
  paginate rq (issueLabelsQ number) fuel 1 [] []

/-- Python truthiness of an optional-string query parameter:
`if head: query += f"&head={head}"`. -/
def pyOptSuffix (name : String) (v : Option String) : String :=
  match v with
  | some s => if s = "" then "" else "&" ++ name ++ "=" ++ s
  | none => ""

/-- The page-independent part of the query string built by
`Repo.pull_list`. -/
def pullsBaseQ (state sort direction : String) (head base : Option String) :
    String :=
  "pulls?state=" ++ state ++ "&sort=" ++ sort ++ "&direction=" ++ direction
    ++ "&per_page=100" ++ pyOptSuffix "head" head ++ pyOptSuffix "base" base

/-- Query string built by `Repo.pull_list` for one page:
`f"{query}&page={page}"`. -/
def pullsQ (state sort direction : String) (head base : Option String)
    (page : Nat) : String :=
  pullsBaseQ state sort direction head base ++ "&page=" ++ toString page

/-- Embedding of `Repo.pull_list` (github.py lines 561-589). -/
def pull_list {ε α : Type} (rq : String → Except ε (List α))
    (state sort direction : String) (head base : Option String) (fuel : Nat) :
    Option (Except ε (List α × List String)) :=
  paginate rq (pullsQ state sort direction head base) fuel 1 [] []

end Repo

/-- Behaviour of `paginate` when pages `page, ..., page + d - 1` return at
least 100 items each and page `page + d` returns fewer than 100: the loop
performs exactly `d + 1` requests and returns the concatenation of the pages
in order. -/
theorem paginate_ok {ε α : Type} (rq : String → Except ε (List α))
    (q : Nat → String) (r : Nat → List α) :
    ∀ (d page : Nat) (acc : List α) (log : List String) (fuel : Nat),
      (∀ i, page ≤ i → i < page + d →
        rq (q i) = Except.ok (r i) ∧ 100 ≤ (r i).length) →
      rq (q (page + d)) = Except.ok (r (page + d)) →
      (r (page + d)).length < 100 →
      d < fuel →
      paginate rq q fuel page acc log =
        some (Except.ok (acc ++ (List.map r (pageList page (d + 1))).flatten,
          log ++ List.map q (pageList page (d + 1)))) := by
  intro d
  induction d with
  | zero =>
    intro page acc log fuel _hmid hlast hshort hfuel
    obtain ⟨f, rfl⟩ : ∃ f, fuel = f + 1 := ⟨fuel - 1, by omega⟩
    rw [Nat.add_zero] at hlast hshort
    simp [paginate, hlast, hshort, pageList]
  | succ d ih =>
    intro page acc log fuel hmid hlast hshort hfuel
    obtain ⟨f, rfl⟩ : ∃ f, fuel = f + 1 := ⟨fuel - 1, by omega⟩
    have hpage := hmid page (Nat.le_refl _) (by omega)
    have hnot : ¬ (r page).length < 100 := by omega
    rw [paginate, hpage.1]
    simp only [hnot, if_false]
    have hlast' : rq (q (page + 1 + d)) = Except.ok (r (page + 1 + d)) := by
      have h1 : page + 1 + d = page + (d + 1) := by omega
      rw [h1]; exact hlast
    have hshort' : (r (page + 1 + d)).length < 100 := by
      have h1 : page + 1 + d = page + (d + 1) := by omega
      rw [h1]; exact hshort
    rw [ih (page + 1) (acc ++ r page) (log ++ [q page]) f
      (fun i h1 h2 => hmid i (by omega) (by omega)) hlast' hshort' (by omega)]
    simp [pageList, List.append_assoc]

/-- Behaviour of `paginate` when pages `page, ..., page + d - 1` return at
least 100 items each and the request for page `page + d` raises: the failure
propagates unchanged and no partial result is returned. -/
theorem paginate_err {ε α : Type} (rq : String → Except ε (List α))
    (q : Nat → String) (r : Nat → List α) (e : ε) :
    ∀ (d page : Nat) (acc : List α) (log : List String) (fuel : Nat),
      (∀ i, page ≤ i → i < page + d →
        rq (q i) = Except.ok (r i) ∧ 100 ≤ (r i).length) →
      rq (q (page + d)) = Except.error e →
      d < fuel →
      paginate rq q fuel page acc log = some (Except.error e) := by
  intro d
  induction d with
  | zero =>
    intro page acc log fuel _hmid hlast hfuel
    obtain ⟨f, rfl⟩ : ∃ f, fuel = f + 1 := ⟨fuel - 1, by omega⟩
    rw [Nat.add_zero] at hlast
    rw [paginate, hlast]
  | succ d ih =>
    intro page acc log fuel hmid hlast hfuel
    obtain ⟨f, rfl⟩ : ∃ f, fuel = f + 1 := ⟨fuel - 1, by omega⟩
    have hpage := hmid page (Nat.le_refl _) (by omega)
    have hnot : ¬ (r page).length < 100 := by omega
    rw [paginate, hpage.1]
    simp only [hnot, if_false]
    have hlast' : rq (q (page + 1 + d)) = Except.error e := by
      have h1 : page + 1 + d = page + (d + 1) := by omega
      rw [h1]; exact hlast
    exact ih (page + 1) (acc ++ r page) (log ++ [q page]) f
      (fun i h1 h2 => hmid i (by omega) (by omega)) hlast' (by omega)

/-- C1: each of the four paginated list operations (`Repo.branches`,
`Repo.labels`, `Repo.issue_labels`, `Repo.pull_list`) starts at page index 1,
requests pages with the fixed page size 100 (visible in the logged query
strings), and stops exactly when a page returns strictly fewer than 100
items: for a page function returning 100, 100 and 42 items for pages 1-3,
the operation returns exactly the 242 items and issues exactly 3 page
requests. -/
theorem c1_pagination_three_pages (ε α : Type) :
    (∀ (rq : String → Except ε (List α)) (r1 r2 r3 : List α) (fuel : Nat),
      rq (Repo.branchesQ 1) = Except.ok r1 → r1.length = 100 →
      rq (Repo.branchesQ 2) = Except.ok r2 → r2.length = 100 →
      rq (Repo.branchesQ 3) = Except.ok r3 → r3.length = 42 →
      3 ≤ fuel →
      Repo.branches rq fuel =
        some (Except.ok (r1 ++ r2 ++ r3,
          ["branches?per_page=100&page=1", "branches?per_page=100&page=2",
           "branches?per_page=100&page=3"])) ∧
      (r1 ++ r2 ++ r3).length = 242) ∧
    (∀ (rq : String → Except ε (List α)) (r1 r2 r3 : List α) (fuel : Nat),
      rq (Repo.labelsQ 1) = Except.ok r1 → r1.length = 100 →
      rq (Repo.labelsQ 2) = Except.ok r2 → r2.length = 100 →
      rq (Repo.labelsQ 3) = Except.ok r3 → r3.length = 42 →
      3 ≤ fuel →
      Repo.labels rq fuel =
        some (Except.ok (r1 ++ r2 ++ r3,
          ["labels?per_page=100&page=1", "labels?per_page=100&page=2",
           "labels?per_page=100&page=3"])) ∧
      (r1 ++ r2 ++ r3).length = 242) ∧
    (∀ (rq : String → Except ε (List α)) (number : Nat) (r1 r2 r3 : List α)
        (fuel : Nat),
      rq (Repo.issueLabelsQ number 1) = Except.ok r1 → r1.length = 100 →
      rq (Repo.issueLabelsQ number 2) = Except.ok r2 → r2.length = 100 →
      rq (Repo.issueLabelsQ number 3) = Except.ok r3 → r3.length = 42 →
      3 ≤ fuel →
      Repo.issue_labels rq number fuel =
        some (Except.ok (r1 ++ r2 ++ r3,
          [Repo.issueLabelsQ number 1, Repo.issueLabelsQ number 2,
           Repo.issueLabelsQ number 3])) ∧
      (r1 ++ r2 ++ r3).length = 242) ∧
    (∀ (rq : String → Except ε (List α)) (state sort direction : String)
        (head base : Option String) (r1 r2 r3 : List α) (fuel : Nat),
      rq (Repo.pullsQ state sort direction head base 1) = Except.ok r1 →
      r1.length = 100 →
      rq (Repo.pullsQ state sort direction head base 2) = Except.ok r2 →
      r2.length = 100 →
      rq (Repo.pullsQ state sort direction head base 3) = Except.ok r3 →
      r3.length = 42 →
      3 ≤ fuel →
      Repo.pull_list rq state sort direction head base fuel =
        some (Except.ok (r1 ++ r2 ++ r3,
          [Repo.pullsQ state sort direction head base 1,
           Repo.pullsQ state sort direction head base 2,
           Repo.pullsQ state sort direction head base 3])) ∧
      (r1 ++ r2 ++ r3).length = 242) := by
  have key : ∀ (q : Nat → String) (rq : String → Except ε (List α))
      (r1 r2 r3 : List α) (fuel : Nat),
      rq (q 1) = Except.ok r1 → r1.length = 100 →
      rq (q 2) = Except.ok r2 → r2.length = 100 →
      rq (q 3) = Except.ok r3 → r3.length = 42 →
      3 ≤ fuel →
      paginate rq q fuel 1 [] [] =
        some (Except.ok (r1 ++ r2 ++ r3, [q 1, q 2, q 3])) ∧
      (r1 ++ r2 ++ r3).length = 242 := by
    intro q rq r1 r2 r3 fuel h1 hl1 h2 hl2 h3 hl3 hfuel
    set r : Nat → List α := fun i => if i = 1 then r1 else if i = 2 then r2 else r3 with hr
    have hmid : ∀ i, 1 ≤ i → i < 1 + 2 →
        rq (q i) = Except.ok (r i) ∧ 100 ≤ (r i).length := by
      intro i hi1 hi2
      have : i = 1 ∨ i = 2 := by omega
      rcases this with rfl | rfl
      · simpa [hr] using ⟨h1, by omega⟩
      · simpa [hr] using ⟨h2, by omega⟩
    have hlast : rq (q (1 + 2)) = Except.ok (r (1 + 2)) := by simpa [hr] using h3
    have hshort : (r (1 + 2)).length < 100 := by simp [hr]; omega
    have := paginate_ok rq q r 2 1 [] [] fuel hmid hlast hshort (by omega)
    constructor
    · rw [this]
      simp [pageList, hr]
    · simp [hl1, hl2, hl3]
  exact ⟨fun rq => key Repo.branchesQ rq,
         fun rq => key Repo.labelsQ rq,
         fun rq number => key (Repo.issueLabelsQ number) rq,
         fun rq state sort direction head base =>
           key (Repo.pullsQ state sort direction head base) rq⟩

/-- Concrete page provider for the `branches` part of the C1 witness. -/
def rqB : String → Except Unit (List Nat) := fun s =>
  if s = "branches?per_page=100&page=1" then Except.ok (List.replicate 100 0)
  else if s = "branches?per_page=100&page=2" then Except.ok (List.replicate 100 0)
  else Except.ok (List.replicate 42 0)

/-- Concrete page provider for the `labels` part of the C1 witness. -/
def rqL : String → Except Unit (List Nat) := fun s =>
  if s = "labels?per_page=100&page=1" then Except.ok (List.replicate 100 0)
  else if s = "labels?per_page=100&page=2" then Except.ok (List.replicate 100 0)
  else Except.ok (List.replicate 42 0)

/-- Concrete page provider for the `issue_labels` part of the C1 witness. -/
def rqIL : String → Except Unit (List Nat) := fun s =>
  if s = "issues/7/labels?per_page=100&page=1" then Except.ok (List.replicate 100 0)
  else if s = "issues/7/labels?per_page=100&page=2" then Except.ok (List.replicate 100 0)
  else Except.ok (List.replicate 42 0)

/-- Concrete page provider for the `pull_list` part of the C1 witness. -/
def rqPL : String → Except Unit (List Nat) := fun s =>
  if s = "pulls?state=open&sort=created&direction=desc&per_page=100&page=1" then
    Except.ok (List.replicate 100 0)
  else if s = "pulls?state=open&sort=created&direction=desc&per_page=100&page=2" then
    Except.ok (List.replicate 100 0)
  else Except.ok (List.replicate 42 0)

/-- Witness for C1: the theorem applied to concrete page providers returning
100, 100 and 42 items for the first three pages of each operation. -/
theorem c1_pagination_three_pages_witness :
    (Repo.branches rqB 3 =
      some (Except.ok
        (List.replicate 100 0 ++ List.replicate 100 0 ++ List.replicate 42 0,
         ["branches?per_page=100&page=1", "branches?per_page=100&page=2",
          "branches?per_page=100&page=3"])) ∧
      (List.replicate 100 0 ++ List.replicate 100 0 ++
        List.replicate (42 : Nat) 0).length = 242) ∧
    (Repo.labels rqL 3 =
      some (Except.ok
        (List.replicate 100 0 ++ List.replicate 100 0 ++ List.replicate 42 0,
         ["labels?per_page=100&page=1", "labels?per_page=100&page=2",
          "labels?per_page=100&page=3"])) ∧
      (List.replicate 100 0 ++ List.replicate 100 0 ++
        List.replicate (42 : Nat) 0).length = 242) ∧
    (Repo.issue_labels rqIL 7 3 =
      some (Except.ok
        (List.replicate 100 0 ++ List.replicate 100 0 ++ List.replicate 42 0,
         [Repo.issueLabelsQ 7 1, Repo.issueLabelsQ 7 2,
          Repo.issueLabelsQ 7 3])) ∧
      (List.replicate 100 0 ++ List.replicate 100 0 ++
        List.replicate (42 : Nat) 0).length = 242) ∧
    (Repo.pull_list rqPL "open" "created" "desc" none none 3 =
      some (Except.ok
        (List.replicate 100 0 ++ List.replicate 100 0 ++ List.replicate 42 0,
         [Repo.pullsQ "open" "created" "desc" none none 1,
          Repo.pullsQ "open" "created" "desc" none none 2,
          Repo.pullsQ "open" "created" "desc" none none 3])) ∧
      (List.replicate 100 0 ++ List.replicate 100 0 ++
        List.replicate (42 : Nat) 0).length = 242) := by
  refine ⟨(c1_pagination_three_pages Unit Nat).1 rqB _ _ _ 3 (by rfl)
      (by simp) (by rfl) (by simp) (by rfl) (by simp) (by omega),
    (c1_pagination_three_pages Unit Nat).2.1 rqL _ _ _ 3 (by rfl)
      (by simp) (by rfl) (by simp) (by rfl) (by simp) (by omega),
    (c1_pagination_three_pages Unit Nat).2.2.1 rqIL 7 _ _ _ 3 (by rfl)
      (by simp) (by rfl) (by simp) (by rfl) (by simp) (by omega),
    (c1_pagination_three_pages Unit Nat).2.2.2 rqPL "open" "created" "desc"
      none none _ _ _ 3 (by rfl) (by simp) (by rfl) (by simp)
      (by rfl) (by simp) (by omega)⟩

theorem pageList_mem {page d i : Nat} :
    i ∈ pageList page d ↔ page ≤ i ∧ i < page + d := by
  induction d generalizing page with
  | zero => simp [pageList]
  | succ d ih =>
    simp only [pageList, List.mem_cons, ih]
    omega

theorem flatten_pages_length {α : Type} (r : Nat → List α) :
    ∀ (d page : Nat), (∀ p, page ≤ p → p < page + d → (r p).length = 100) →
      ((List.map r (pageList page d)).flatten).length = 100 * d := by
  intro d
  induction d with
  | zero => intro page _; simp [pageList]
  | succ d ih =>
    intro page h
    have hpage : (r page).length = 100 := h page (Nat.le_refl _) (by omega)
    simp only [pageList, List.map_cons, List.flatten_cons, List.length_append,
      hpage, ih (page + 1) (fun p h1 h2 => h p (by omega) (by omega))]
    ring

/-- C6: for each paginated list operation and any sequence of per-page
responses (pages 1 through d returning at least 100 items and page d+1
terminating the loop by returning fewer), the returned list equals the
concatenation of the per-page item lists in page order — item order within a
page is preserved exactly as received, never re-sorted. -/
theorem c6_pagination_concatenation (ε α : Type) :
    (∀ (rq : String → Except ε (List α)) (r : Nat → List α) (d fuel : Nat),
      (∀ i, 1 ≤ i → i < 1 + d →
        rq (Repo.branchesQ i) = Except.ok (r i) ∧ 100 ≤ (r i).length) →
      rq (Repo.branchesQ (1 + d)) = Except.ok (r (1 + d)) →
      (r (1 + d)).length < 100 →
      d < fuel →
      Repo.branches rq fuel =
        some (Except.ok ((List.map r (pageList 1 (d + 1))).flatten,
          List.map Repo.branchesQ (pageList 1 (d + 1))))) ∧
    (∀ (rq : String → Except ε (List α)) (r : Nat → List α) (d fuel : Nat),
      (∀ i, 1 ≤ i → i < 1 + d →
        rq (Repo.labelsQ i) = Except.ok (r i) ∧ 100 ≤ (r i).length) →
      rq (Repo.labelsQ (1 + d)) = Except.ok (r (1 + d)) →
      (r (1 + d)).length < 100 →
      d < fuel →
      Repo.labels rq fuel =
        some (Except.ok ((List.map r (pageList 1 (d + 1))).flatten,
          List.map Repo.labelsQ (pageList 1 (d + 1))))) ∧
    (∀ (rq : String → Except ε (List α)) (number : Nat) (r : Nat → List α)
        (d fuel : Nat),
      (∀ i, 1 ≤ i → i < 1 + d →
        rq (Repo.issueLabelsQ number i) = Except.ok (r i) ∧
          100 ≤ (r i).length) →
      rq (Repo.issueLabelsQ number (1 + d)) = Except.ok (r (1 + d)) →
      (r (1 + d)).length < 100 →
      d < fuel →
      Repo.issue_labels rq number fuel =
        some (Except.ok ((List.map r (pageList 1 (d + 1))).flatten,
          List.map (Repo.issueLabelsQ number) (pageList 1 (d + 1))))) ∧
    (∀ (rq : String → Except ε (List α)) (state sort direction : String)
        (head base : Option String) (r : Nat → List α) (d fuel : Nat),
      (∀ i, 1 ≤ i → i < 1 + d →
        rq (Repo.pullsQ state sort direction head base i) = Except.ok (r i) ∧
          100 ≤ (r i).length) →
      rq (Repo.pullsQ state sort direction head base (1 + d)) =
        Except.ok (r (1 + d)) →
      (r (1 + d)).length < 100 →
      d < fuel →
      Repo.pull_list rq state sort direction head base fuel =
        some (Except.ok ((List.map r (pageList 1 (d + 1))).flatten,
          List.map (Repo.pullsQ state sort direction head base)
            (pageList 1 (d + 1))))) := by
  refine ⟨fun rq r d fuel hmid hlast hshort hfuel => ?_,
          fun rq r d fuel hmid hlast hshort hfuel => ?_,
          fun rq number r d fuel hmid hlast hshort hfuel => ?_,
          fun rq state sort direction head base r d fuel hmid hlast hshort
            hfuel => ?_⟩ <;>
    simpa using paginate_ok rq _ r d 1 [] [] fuel hmid hlast hshort hfuel

/-- Witness for C6 at a concrete page provider: page 1 returns 100 items,
page 2 returns 42 items, and each operation returns their concatenation. -/
theorem c6_pagination_concatenation_witness :
    Repo.labels
        (fun s => if s = Repo.labelsQ 1 then
            (Except.ok (List.replicate 100 ()) : Except Unit (List Unit))
          else Except.ok (List.replicate 42 ())) 2 =
      some (Except.ok
        ((List.map (fun i => if i = 1 then List.replicate 100 ()
            else List.replicate 42 ()) (pageList 1 2)).flatten,
         List.map Repo.labelsQ (pageList 1 2))) := by
  exact (c6_pagination_concatenation Unit Unit).2.1 _
    (fun i => if i = 1 then List.replicate 100 () else List.replicate 42 ())
    1 2
    (by
      intro i h1 h2
      have : i = 1 := by omega
      subst this
      exact ⟨rfl, by simp⟩)
    (by rfl) (by simp) (by omega)

/-- C5: for each paginated list operation, when pages 1 through n return
exactly 100 items each (the page size) and page n+1 is empty, exactly one
extra page request is issued (n+1 requests in total) and the empty page is
discarded: the result is exactly the 100·n items of the first n pages. -/
theorem c5_pagination_extra_empty_page (ε α : Type) :
    (∀ (rq : String → Except ε (List α)) (r : Nat → List α) (n fuel : Nat),
      (∀ i, 1 ≤ i → i ≤ n →
        rq (Repo.branchesQ i) = Except.ok (r i) ∧ (r i).length = 100) →
      rq (Repo.branchesQ (n + 1)) = Except.ok [] →
      n < fuel →
      Repo.branches rq fuel =
        some (Except.ok ((List.map r (pageList 1 n)).flatten,
          List.map Repo.branchesQ (pageList 1 (n + 1)))) ∧
      ((List.map r (pageList 1 n)).flatten).length = 100 * n ∧
      (List.map Repo.branchesQ (pageList 1 (n + 1))).length = n + 1) ∧
    (∀ (rq : String → Except ε (List α)) (r : Nat → List α) (n fuel : Nat),
      (∀ i, 1 ≤ i → i ≤ n →
        rq (Repo.labelsQ i) = Except.ok (r i) ∧ (r i).length = 100) →
      rq (Repo.labelsQ (n + 1)) = Except.ok [] →
      n < fuel →
      Repo.labels rq fuel =
        some (Except.ok ((List.map r (pageList 1 n)).flatten,
          List.map Repo.labelsQ (pageList 1 (n + 1)))) ∧
      ((List.map r (pageList 1 n)).flatten).length = 100 * n ∧
      (List.map Repo.labelsQ (pageList 1 (n + 1))).length = n + 1) ∧
    (∀ (rq : String → Except ε (List α)) (number : Nat) (r : Nat → List α)
        (n fuel : Nat),
      (∀ i, 1 ≤ i → i ≤ n →
        rq (Repo.issueLabelsQ number i) = Except.ok (r i) ∧
          (r i).length = 100) →
      rq (Repo.issueLabelsQ number (n + 1)) = Except.ok [] →
      n < fuel →
      Repo.issue_labels rq number fuel =
        some (Except.ok ((List.map r (pageList 1 n)).flatten,
          List.map (Repo.issueLabelsQ number) (pageList 1 (n + 1)))) ∧
      ((List.map r (pageList 1 n)).flatten).length = 100 * n ∧
      (List.map (Repo.issueLabelsQ number) (pageList 1 (n + 1))).length
        = n + 1) ∧
    (∀ (rq : String → Except ε (List α)) (state sort direction : String)
        (head base : Option String) (r : Nat → List α) (n fuel : Nat),
      (∀ i, 1 ≤ i → i ≤ n →
        rq (Repo.pullsQ state sort direction head base i) = Except.ok (r i) ∧
          (r i).length = 100) →
      rq (Repo.pullsQ state sort direction head base (n + 1)) =
        Except.ok [] →
      n < fuel →
      Repo.pull_list rq state sort direction head base fuel =
        some (Except.ok ((List.map r (pageList 1 n)).flatten,
          List.map (Repo.pullsQ state sort direction head base)
            (pageList 1 (n + 1)))) ∧
      ((List.map r (pageList 1 n)).flatten).length = 100 * n ∧
      (List.map (Repo.pullsQ state sort direction head base)
        (pageList 1 (n + 1))).length = n + 1) := by
  have key : ∀ (q : Nat → String) (rq : String → Except ε (List α))
      (r : Nat → List α) (n fuel : Nat),
      (∀ i, 1 ≤ i → i ≤ n →
        rq (q i) = Except.ok (r i) ∧ (r i).length = 100) →
      rq (q (n + 1)) = Except.ok [] →
      n < fuel →
      paginate rq q fuel 1 [] [] =
        some (Except.ok ((List.map r (pageList 1 n)).flatten,
          List.map q (pageList 1 (n + 1)))) ∧
      ((List.map r (pageList 1 n)).flatten).length = 100 * n ∧
      (List.map q (pageList 1 (n + 1))).length = n + 1 := by
    intro q rq r n fuel hmid hlast hfuel
    set R : Nat → List α := fun i => if i = n + 1 then [] else r i with hR
    have hmid' : ∀ i, 1 ≤ i → i < 1 + n →
        rq (q i) = Except.ok (R i) ∧ 100 ≤ (R i).length := by
      intro i h1 h2
      have hne : ¬ i = n + 1 := by omega
      have := hmid i h1 (by omega)
      simp only [hR, hne, if_false]
      exact ⟨this.1, by omega⟩
    have hlast' : rq (q (1 + n)) = Except.ok (R (1 + n)) := by
      have h1 : 1 + n = n + 1 := by omega
      simp only [hR, h1, if_pos rfl]
      exact hlast
    have hshort' : (R (1 + n)).length < 100 := by
      have h1 : 1 + n = n + 1 := by omega
      simp [hR, h1]
    have main := paginate_ok rq q R n 1 [] [] fuel hmid' hlast' hshort'
      (by omega)
    have hsplit : (List.map R (pageList 1 (n + 1))).flatten =
        (List.map r (pageList 1 n)).flatten := by
      rw [pageList_succ_append]
      have hagree : List.map R (pageList 1 n) = List.map r (pageList 1 n) := by
        apply List.map_congr_left
        intro i hi
        have := pageList_mem.mp hi
        have hne : ¬ i = n + 1 := by omega
        simp [hR, hne]
      have hlastR : R (1 + n) = [] := by
        have h1 : 1 + n = n + 1 := by omega
        simp [hR, h1]
      simp [hagree, hlastR]
    refine ⟨by rw [main, hsplit]; simp, ?_, ?_⟩
    · exact flatten_pages_length r n 1
        (fun p h1 h2 => (hmid p h1 (by omega)).2)
    · simp [pageList_length]
  exact ⟨fun rq => key Repo.branchesQ rq,
         fun rq => key Repo.labelsQ rq,
         fun rq number => key (Repo.issueLabelsQ number) rq,
         fun rq state sort direction head base =>
           key (Repo.pullsQ state sort direction head base) rq⟩

/-- Witness for C5 at a concrete page provider: one full page of 100 items
followed by an empty page gives 2 requests and 100 items. -/
theorem c5_pagination_extra_empty_page_witness :
    Repo.labels
        (fun s => if s = Repo.labelsQ 1 then
            (Except.ok (List.replicate 100 ()) : Except Unit (List Unit))
          else Except.ok []) 2 =
      some (Except.ok
        ((List.map (fun _ : Nat => List.replicate 100 ())
            (pageList 1 1)).flatten,
         List.map Repo.labelsQ (pageList 1 2))) ∧
    ((List.map (fun _ : Nat => List.replicate (100 : Nat) ())
        (pageList 1 1)).flatten).length = 100 * 1 ∧
    (List.map Repo.labelsQ (pageList 1 2)).length = 1 + 1 := by
  exact (c5_pagination_extra_empty_page Unit Unit).2.1 _
    (fun _ => List.replicate 100 ()) 1 2
    (by
      intro i h1 h2
      have : i = 1 := by omega
      subst this
      exact ⟨rfl, by simp⟩)
    (by rfl) (by omega)

/-- C7: for each paginated list operation, a failure raised by the per-page
fetch on some page propagates immediately and unchanged to the caller, and
no partial result accumulated from the earlier pages of the same call is
returned. -/
theorem c7_pagination_error_propagation (ε α : Type) :
    (∀ (rq : String → Except ε (List α)) (r : Nat → List α) (e : ε)
        (d fuel : Nat),
      (∀ i, 1 ≤ i → i < 1 + d →
        rq (Repo.branchesQ i) = Except.ok (r i) ∧ 100 ≤ (r i).length) →
      rq (Repo.branchesQ (1 + d)) = Except.error e →
      d < fuel →
      Repo.branches rq fuel = some (Except.error e)) ∧
    (∀ (rq : String → Except ε (List α)) (r : Nat → List α) (e : ε)
        (d fuel : Nat),
      (∀ i, 1 ≤ i → i < 1 + d →
        rq (Repo.labelsQ i) = Except.ok (r i) ∧ 100 ≤ (r i).length) →
      rq (Repo.labelsQ (1 + d)) = Except.error e →
      d < fuel →
      Repo.labels rq fuel = some (Except.error e)) ∧
    (∀ (rq : String → Except ε (List α)) (number : Nat) (r : Nat → List α)
        (e : ε) (d fuel : Nat),
      (∀ i, 1 ≤ i → i < 1 + d →
        rq (Repo.issueLabelsQ number i) = Except.ok (r i) ∧
          100 ≤ (r i).length) →
      rq (Repo.issueLabelsQ number (1 + d)) = Except.error e →
      d < fuel →
      Repo.issue_labels rq number fuel = some (Except.error e)) ∧
    (∀ (rq : String → Except ε (List α)) (state sort direction : String)
        (head base : Option String) (r : Nat → List α) (e : ε) (d fuel : Nat),
      (∀ i, 1 ≤ i → i < 1 + d →
        rq (Repo.pullsQ state sort direction head base i) = Except.ok (r i) ∧
          100 ≤ (r i).length) →
      rq (Repo.pullsQ state sort direction head base (1 + d)) =
        Except.error e →
      d < fuel →
      Repo.pull_list rq state sort direction head base fuel =
        some (Except.error e)) := by
  exact ⟨fun rq r e d fuel hmid hlast hfuel =>
           paginate_err rq _ r e d 1 [] [] fuel hmid hlast hfuel,
         fun rq r e d fuel hmid hlast hfuel =>
           paginate_err rq _ r e d 1 [] [] fuel hmid hlast hfuel,
         fun rq number r e d fuel hmid hlast hfuel =>
           paginate_err rq _ r e d 1 [] [] fuel hmid hlast hfuel,
         fun rq state sort direction head base r e d fuel hmid hlast hfuel =>
           paginate_err rq _ r e d 1 [] [] fuel hmid hlast hfuel⟩

namespace Repo

/-- Query string built by `Repo.issue_comments` for one page:
`f"issues/{number}/comments?per_page=100&page={page}"`. -/
def issueCommentsQ (number page : Nat) : String :=
  "issues/" ++ toString number ++ "/comments?per_page=100&page="
    ++ toString page

/-- The capped pagination loop of `Repo.issue_comments`:

    comments = []
    page = 1
    while True:
        response = self._rest_query(f"issues/{number}/comments?per_page=100&page={page}")
        comments.extend(response)
        page += 1
        if len(response) < 100 or len(comments) >= max_count:
            break
    return comments

Unlike the uncapped loops this one always terminates (the accumulator grows
by at least 100 items per continued iteration while staying below
`maxCount`), so it is embedded without fuel, by well-founded recursion on
`maxCount - acc.length`. -/
def issueCommentsLoop {ε α : Type} (rq : String → Except ε (List α))
    (number maxCount page : Nat) (acc : List α) (log : List String) :
    Except ε (List α × List String) :=
  match rq (issueCommentsQ number page) with
  | Except.error e => Except.error e
  | Except.ok resp =>
    if _h : resp.length < 100 ∨ maxCount ≤ (acc ++ resp).length then
      Except.ok (acc ++ resp, log ++ [issueCommentsQ number page])
    else
      issueCommentsLoop rq number maxCount (page + 1) (acc ++ resp)
        (log ++ [issueCommentsQ number page])
termination_by maxCount - acc.length
decreasing_by
  simp only [List.length_append] at *
  push_neg at _h
  omega

/-- Embedding of `Repo.issue_comments` (github.py lines 523-553); the Python
default for `max_count` is 1000. -/
def issue_comments {ε α : Type} (rq : String → Except ε (List α))
    (number : Nat) (maxCount : Nat := 1000) :
    Except ε (List α × List String) :=
  issueCommentsLoop rq number maxCount 1 [] []

end Repo

/-- Behaviour of `issueCommentsLoop` when every page returns exactly 100
items: starting from an accumulator for which `d + 1` more pages are needed
to reach `maxCount`, the loop fetches exactly pages
`page, ..., page + d` and stops. -/
theorem issueCommentsLoop_full_pages {ε α : Type}
    (rq : String → Except ε (List α)) (number maxCount : Nat)
    (r : Nat → List α)
    (hall : ∀ p, 1 ≤ p →
      rq (Repo.issueCommentsQ number p) = Except.ok (r p) ∧
        (r p).length = 100) :
    ∀ (d page : Nat) (acc : List α) (log : List String),
      1 ≤ page →
      acc.length + 100 * d < maxCount →
      maxCount ≤ acc.length + 100 * (d + 1) →
      Repo.issueCommentsLoop rq number maxCount page acc log =
        Except.ok (acc ++ (List.map r (pageList page (d + 1))).flatten,
          log ++ List.map (Repo.issueCommentsQ number)
            (pageList page (d + 1))) := by
  intro d
  induction d with
  | zero =>
    intro page acc log hpage hlo hhi
    have hp := hall page hpage
    have hstop : (r page).length < 100 ∨
        maxCount ≤ (acc ++ r page).length := by
      right
      simp [List.length_append, hp.2]
      omega
    rw [Repo.issueCommentsLoop, hp.1]
    simp only [hstop, dif_pos]
    simp [pageList]
  | succ d ih =>
    intro page acc log hpage hlo hhi
    have hp := hall page hpage
    have hcont : ¬ ((r page).length < 100 ∨
        maxCount ≤ (acc ++ r page).length) := by
      push_neg
      constructor
      · omega
      · simp only [List.length_append, hp.2]
        omega
    rw [Repo.issueCommentsLoop, hp.1]
    simp only [hcont, dif_neg, not_false_iff]
    rw [ih (page + 1) (acc ++ r page)
      (log ++ [Repo.issueCommentsQ number page]) (by omega)
      (by simp only [List.length_append, hp.2]; omega)
      (by simp only [List.length_append, hp.2]; omega)]
    simp [pageList, List.append_assoc]

/-- C4: when every page returns exactly 100 items, `Repo.issue_comments`
with a cap `max_count ≥ 1` stops at the first page after which the
accumulated count reaches `max_count`, and returns at least `max_count`
items; in particular for `max_count = 150` it stops after exactly 2 page
requests with 200 ≥ 150 items. -/
theorem c4_issue_comments_cap (ε α : Type)
    (rq : String → Except ε (List α)) (r : Nat → List α)
    (number maxCount : Nat)
    (hall : ∀ p, 1 ≤ p →
      rq (Repo.issueCommentsQ number p) = Except.ok (r p) ∧
        (r p).length = 100)
    (hmax : 1 ≤ maxCount) :
    ∃ (items : List α) (log : List String),
      Repo.issue_comments rq number maxCount = Except.ok (items, log) ∧
      maxCount ≤ items.length ∧
      items.length = 100 * log.length ∧
      100 * (log.length - 1) < maxCount ∧
      (maxCount = 150 → log.length = 2 ∧ 150 ≤ items.length) := by
  obtain ⟨d, hlo, hhi⟩ : ∃ d, 100 * d < maxCount ∧ maxCount ≤ 100 * (d + 1) :=
    ⟨(maxCount - 1) / 100, by omega, by omega⟩
  have main := issueCommentsLoop_full_pages rq number maxCount r hall d 1 [] []
    (Nat.le_refl _) (by simpa using hlo) (by simpa using hhi)
  have hlen : ((List.map r (pageList 1 (d + 1))).flatten).length
      = 100 * (d + 1) :=
    flatten_pages_length r (d + 1) 1 (fun p h1 _ => (hall p h1).2)
  have hloglen : (List.map (Repo.issueCommentsQ number)
      (pageList 1 (d + 1))).length = d + 1 := by
    simp [pageList_length]
  refine ⟨(List.map r (pageList 1 (d + 1))).flatten,
    List.map (Repo.issueCommentsQ number) (pageList 1 (d + 1)),
    by simpa [Repo.issue_comments] using main, ?_, ?_, ?_, ?_⟩
  · omega
  · rw [hlen, hloglen]
  · rw [hloglen]; omega
  · intro h150
    subst h150
    constructor
    · omega
    · omega

/-- Witness for C4: a provider returning 100 items on every page, with
`max_count = 150`, stops within 2 requests and returns at least 150 items. -/
theorem c4_issue_comments_cap_witness :
    ∃ (items : List Nat) (log : List String),
      Repo.issue_comments
          (fun _ => (Except.ok (List.replicate 100 0) :
            Except Unit (List Nat))) 7 150 = Except.ok (items, log) ∧
      150 ≤ items.length ∧
      items.length = 100 * log.length ∧
      100 * (log.length - 1) < 150 ∧
      (150 = 150 → log.length = 2 ∧ 150 ≤ items.length) := by
  exact c4_issue_comments_cap Unit Nat _ (fun _ => List.replicate 100 0) 7 150
    (fun p _ => ⟨rfl, by simp⟩) (by omega)

/-- Witness for C7 at a concrete page provider: page 1 returns 100 items and
page 2 raises; the whole call reports exactly that failure and the 100
already-fetched items are discarded. -/
theorem c7_pagination_error_propagation_witness :
    Repo.branches
        (fun s => if s = Repo.branchesQ 1 then
            Except.ok (List.replicate 100 ())
          else Except.error 5) 3 =
      some (Except.error 5) := by
  exact (c7_pagination_error_propagation Nat Unit).1 _
    (fun _ => List.replicate 100 ()) 5 1 3
    (by
      intro i h1 h2
      have : i = 1 := by omega
      subst this
      exact ⟨rfl, by simp⟩)
    (by rfl) (by omega)

namespace Repo

/-- Python `str | int` argument (the `title` parameter of
`Repo.issue_update`). -/
inductive StrInt where
  | s (v : String)
  | i (v : Int)
deriving DecidableEq

/-- Python `str(x)` on a `str | int` value. -/
def pyStr : StrInt → String
  | StrInt.s v => v
  | StrInt.i v => toString v

/-- The JSON payload assembled by `Repo.issue_update` (github.py lines
437-471): starts from an empty dict and inserts, in order, each optional
field whose argument is not `None`; `title` and `body` are passed through
`str(...)` (identity on the `str`-typed `body`). -/
def issue_update_data (title : Option StrInt) (body : Option String)
    (state state_reason : Option String) : List (String × String) :=
  (match title with | some t => [("title", pyStr t)] | none => [])
    ++ (match body with | some b => [("body", b)] | none => [])
    ++ (match state with | some s => [("state", s)] | none => [])
    ++ (match state_reason with
        | some sr => [("state_reason", sr)] | none => [])

/-- Embedding of `Repo.issue_update`: the PATCH request it issues, as
(verb, query, json payload). -/
def issue_update (number : Nat) (title : Option StrInt)
    (body : Option String) (state state_reason : Option String) :
    String × String × List (String × String) :=
  ("PATCH", "issues/" ++ toString number,
    issue_update_data title body state state_reason)

/-- The JSON payload assembled by `Repo.pull_merge` (github.py lines
715-752), before the final `data if data else None`. -/
def pull_merge_data (commit_title commit_message sha merge_method :
    Option String) : List (String × String) :=
  (match commit_title with
   | some ct => [("commit_title", ct)] | none => [])
    ++ (match commit_message with
        | some cm => [("commit_message", cm)] | none => [])
    ++ (match sha with | some v => [("sha", v)] | none => [])
    ++ (match merge_method with
        | some mm => [("merge_method", mm)] | none => [])

/-- Embedding of `Repo.pull_merge`: the PUT request it issues, as
(verb, query, json payload); `json=data if data else None` sends no JSON
body at all when every optional argument is `None`. -/
def pull_merge (number : Nat) (commit_title commit_message sha merge_method :
    Option String) : String × String × Option (List (String × String)) :=
  ("PUT", "pulls/" ++ toString number ++ "/merge",
    let data := pull_merge_data commit_title commit_message sha merge_method
    if data = [] then none else some data)

end Repo

/-- C8: the outgoing JSON payloads of `Repo.issue_update` and
`Repo.pull_merge` contain exactly those optional fields whose arguments were
passed as non-`None` values (with `title` and `body` of `issue_update`
coerced through `str(...)`); fields left as `None` are entirely absent. -/
theorem c8_optional_fields_in_payload :
    (∀ (number : Nat) (title : Option Repo.StrInt)
        (body state state_reason : Option String),
      List.lookup "title"
          (Repo.issue_update number title body state state_reason).2.2
        = title.map Repo.pyStr ∧
      List.lookup "body"
          (Repo.issue_update number title body state state_reason).2.2
        = body ∧
      List.lookup "state"
          (Repo.issue_update number title body state state_reason).2.2
        = state ∧
      List.lookup "state_reason"
          (Repo.issue_update number title body state state_reason).2.2
        = state_reason ∧
      (∀ k, k ∈ (List.map Prod.fst
          (Repo.issue_update number title body state state_reason).2.2) →
        k = "title" ∨ k = "body" ∨ k = "state" ∨ k = "state_reason")) ∧
    (∀ (number : Nat) (commit_title commit_message sha merge_method :
        Option String),
      ((Repo.pull_merge number commit_title commit_message sha
          merge_method).2.2 = none ↔
        commit_title = none ∧ commit_message = none ∧ sha = none ∧
          merge_method = none) ∧
      List.lookup "commit_title"
          ((Repo.pull_merge number commit_title commit_message sha
            merge_method).2.2.getD [])
        = commit_title ∧
      List.lookup "commit_message"
          ((Repo.pull_merge number commit_title commit_message sha
            merge_method).2.2.getD [])
        = commit_message ∧
      List.lookup "sha"
          ((Repo.pull_merge number commit_title commit_message sha
            merge_method).2.2.getD [])
        = sha ∧
      List.lookup "merge_method"
          ((Repo.pull_merge number commit_title commit_message sha
            merge_method).2.2.getD [])
        = merge_method ∧
      (∀ k, k ∈ (List.map Prod.fst
          ((Repo.pull_merge number commit_title commit_message sha
            merge_method).2.2.getD [])) →
        k = "commit_title" ∨ k = "commit_message" ∨ k = "sha" ∨
          k = "merge_method")) := by
  constructor
  · intro number title body state state_reason
    rcases title with _ | t <;> rcases body with _ | b <;>
      rcases state with _ | st <;> rcases state_reason with _ | sr <;>
      simp [Repo.issue_update, Repo.issue_update_data, List.lookup]
  · intro number commit_title commit_message sha merge_method
    rcases commit_title with _ | ct <;> rcases commit_message with _ | cm <;>
      rcases sha with _ | sh <;> rcases merge_method with _ | mm <;>
      simp [Repo.pull_merge, Repo.pull_merge_data, List.lookup]

/-- Witness for C8: concrete calls. `issue_update` with an integer title and
only `state` set carries exactly the coerced title and the state;
`pull_merge` with no optional argument set sends no JSON payload at all. -/
theorem c8_optional_fields_in_payload_witness :
    List.lookup "title"
        (Repo.issue_update 3 (some (Repo.StrInt.i 5)) none (some "closed")
          none).2.2
      = (some (Repo.StrInt.i 5)).map Repo.pyStr ∧
    List.lookup "body"
        (Repo.issue_update 3 (some (Repo.StrInt.i 5)) none (some "closed")
          none).2.2
      = none ∧
    (Repo.pull_merge 3 none none none none).2.2 = none := by
  refine ⟨(c8_optional_fields_in_payload.1 3 (some (Repo.StrInt.i 5)) none
      (some "closed") none).1,
    (c8_optional_fields_in_payload.1 3 (some (Repo.StrInt.i 5)) none
      (some "closed") none).2.1,
    (c8_optional_fields_in_payload.2 3 none none none none).1.mpr
      ⟨rfl, rfl, rfl, rfl⟩⟩

namespace GitHub

/-- The request headers assembled by `GitHub.__init__` (github.py lines
14-23): the API-version header always, plus `Authorization: Bearer <token>`
exactly when the token is truthy (`if self._token:` — i.e. neither `None`
nor the empty string). -/
def headers (token : Option String) : List (String × String) :=
  let base := [("X-GitHub-Api-Version", "2022-11-28")]
  match token with
  | some t => if t = "" then base else base ++ [("Authorization", "Bearer " ++ t)]
  | none => base

/-- Embedding of the `GitHub.authenticated` property (github.py lines
87-89): `self._token is not None`. -/
def authenticated (token : Option String) : Bool :=
  token.isSome

end GitHub

/-- C10: `GitHub.authenticated` is `True` exactly when the constructor token
was not `None`, while the `Authorization: Bearer <token>` header is attached
exactly when the token is truthy (non-empty); hence for the empty-string
token `authenticated` is `True` yet no `Authorization` header is sent. -/
theorem c10_authenticated_vs_auth_header (token : Option String) :
    (GitHub.authenticated token = true ↔ token ≠ none) ∧
    (List.lookup "Authorization" (GitHub.headers token) ≠ none ↔
      ∃ t, token = some t ∧ t ≠ "") ∧
    (∀ t, token = some t → t ≠ "" →
      List.lookup "Authorization" (GitHub.headers token)
        = some ("Bearer " ++ t)) ∧
    (GitHub.authenticated (some "") = true ∧
      List.lookup "Authorization" (GitHub.headers (some "")) = none) := by
  refine ⟨?_, ?_, ?_, by simp [GitHub.authenticated, GitHub.headers,
    List.lookup]⟩
  · rcases token with _ | t <;> simp [GitHub.authenticated]
  · rcases token with _ | t
    · simp [GitHub.headers, List.lookup]
    · by_cases ht : t = "" <;> simp [GitHub.headers, ht, List.lookup]
  · intro t ht hne
    subst ht
    simp [GitHub.headers, hne, List.lookup]

/-- Witness for C10: with the empty-string token, `authenticated` is `True`
yet no `Authorization` header is present; with token `"tok"` the bearer
header is present. -/
theorem c10_authenticated_vs_auth_header_witness :
    (GitHub.authenticated (some "") = true ∧
      List.lookup "Authorization" (GitHub.headers (some "")) = none) ∧
    List.lookup "Authorization" (GitHub.headers (some "tok"))
      = some ("Bearer " ++ "tok") := by
  exact ⟨(c10_authenticated_vs_auth_header (some "")).2.2.2,
    (c10_authenticated_vs_auth_header (some "tok")).2.2.1 "tok" rfl
      (by simp)⟩

/-- Decoded JSON value, as far as the GraphQL envelope handling needs it. -/
inductive J where
  | str (v : String)
  | obj (fields : List (String × J))

/-- Key lookup in the field list of a JSON object. -/
def lookupFields : List (String × J) → String → Option J
  | [], _ => none
  | (k', v) :: rest, k => if k' = k then some v else lookupFields rest k

/-- Python `response[k]` on a decoded JSON value (`none` when the key is
missing or the value is not an object, where Python would raise). -/
def J.lookup (j : J) (k : String) : Option J :=
  match j with
  | J.obj fields => lookupFields fields k
  | _ => none

/-- Python `k in response` for a decoded JSON object. -/
def J.hasKey (j : J) (k : String) : Bool :=
  (j.lookup k).isSome

namespace GitHub

/-- Embedding of the response handling of `GitHub.graphql_mutation`
(github.py lines 44-65), parameterised by the decoded JSON response of the
single POST request the method issues:

    if "errors" in response:
        return response
    return response["data"]

A missing `"data"` key would raise `KeyError` in Python, modelled as
`Except.error`. -/
def graphql_mutation (response : J) : Except PyErr J :=
  if response.hasKey "errors" then Except.ok response
  else
    match response.lookup "data" with
    | some d => Except.ok d
    | none => Except.error PyErr.keyError

end GitHub

/-- Counterexample to C2 as stated: for the success envelope
`{"data": {"createBranchProtectionRule": "payload"}}` with mutation name
`createBranchProtectionRule`, `graphql_mutation` returns the whole
`response["data"]` object, not the claimed unwrapped
`response["data"][mutationName]` payload. -/
theorem c2_counterexample :
    GitHub.graphql_mutation
        (J.obj [("data",
          J.obj [("createBranchProtectionRule", J.str "payload")])])
      = Except.ok (J.obj [("createBranchProtectionRule", J.str "payload")]) ∧
    GitHub.graphql_mutation
        (J.obj [("data",
          J.obj [("createBranchProtectionRule", J.str "payload")])])
      ≠ Except.ok (J.str "payload") := by
  constructor
  · rfl
  · intro h
    exact J.noConfusion (Except.ok.inj h)

/-- C2 (amended): for every call to `GitHub.graphql_mutation`, when the
decoded response contains an `"errors"` key the raw error envelope is
returned unchanged (no exception raised); otherwise the result is
`response["data"]` — the further `[mutationName]` indexing is performed by
the callers (e.g. `Repo.branch_protection_rule_create`), not by
`graphql_mutation` itself. -/
theorem c2_graphql_mutation_envelope (response : J) :
    (response.hasKey "errors" = true →
      GitHub.graphql_mutation response = Except.ok response) ∧
    (response.hasKey "errors" = false →
      ∀ d, response.lookup "data" = some d →
        GitHub.graphql_mutation response = Except.ok d) := by
  constructor
  · intro h
    simp [GitHub.graphql_mutation, h]
  · intro h d hd
    simp [GitHub.graphql_mutation, h, hd]

/-- Witness for C2: a concrete error envelope is returned unchanged, and a
concrete success envelope is unwrapped exactly one level, to
`response["data"]`. -/
theorem c2_graphql_mutation_envelope_witness :
    GitHub.graphql_mutation (J.obj [("errors", J.str "boom")])
      = Except.ok (J.obj [("errors", J.str "boom")]) ∧
    GitHub.graphql_mutation
        (J.obj [("data",
          J.obj [("createBranchProtectionRule", J.str "payload")])])
      = Except.ok (J.obj [("createBranchProtectionRule", J.str "payload")]) := by
  exact ⟨(c2_graphql_mutation_envelope (J.obj [("errors", J.str "boom")])).1
      (by rfl),
    (c2_graphql_mutation_envelope
        (J.obj [("data",
          J.obj [("createBranchProtectionRule", J.str "payload")])])).2
      (by rfl) _ (by rfl)⟩

/-- Lower-case ASCII letter or digit: the first character class of the topic
pattern `^[a-z0-9][a-z0-9\-]*$`. -/
def lowerAlnum (c : Char) : Bool :=
  ('a' ≤ c && c ≤ 'z') || ('0' ≤ c && c ≤ '9')

/-- Character class `[a-z0-9\-]`. -/
def topicChar (c : Char) : Bool :=
  lowerAlnum c || c = '-'

/-- Whether a character list matches the body `[a-z0-9][a-z0-9\-]*`. -/
def topicBody : List Char → Bool
  | [] => false
  | c :: cs => lowerAlnum c && cs.all topicChar

/-- Python `re.match` semantics of an `^...$`-anchored pattern on a string:
`$` matches at the end of the string or just before a trailing newline. -/
def pyDollarMatch (body : List Char → Bool) (l : List Char) : Bool :=
  body l || ((l.getLast? == some '\n') && body l.dropLast)

/-- Truthiness of `re.match(r"^[a-z0-9][a-z0-9\-]*$", s)`
(`Repo.repo_topics_replace`, github.py line 857). -/
def topicMatch (s : String) : Bool :=
  pyDollarMatch topicBody s.data

/-- Character class `[0-9a-fA-F]`. -/
def hexChar (c : Char) : Bool :=
  ('0' ≤ c && c ≤ '9') || ('a' ≤ c && c ≤ 'f') || ('A' ≤ c && c ≤ 'F')

/-- Whether a character list matches the body `[0-9a-fA-F]{6}`. -/
def colorBody (l : List Char) : Bool :=
  (l.length == 6) && l.all hexChar

/-- Truthiness of `re.match(r"^[0-9a-fA-F]{6}$", s)`
(`Repo._validate_label_data`, github.py line 1351). -/
def colorMatch (s : String) : Bool :=
  pyDollarMatch colorBody s.data

/-- An element of the Python list passed to `Repo.repo_topics_replace`:
either a `str` or some non-string value. -/
inductive TopicArg where
  | str (v : String)
  | nonStr
deriving DecidableEq

/-- The per-topic checks of `Repo.repo_topics_replace` (github.py lines
856-864), in source order: `isinstance(topic, str)`, the 50-character bound,
then the topic pattern. -/
def validateTopic : TopicArg → Option PyErr
  | TopicArg.nonStr => some PyErr.typeError
  | TopicArg.str s =>
    if 50 < s.length then some PyErr.valueError
    else if topicMatch s then none
    else some PyErr.valueError

/-- The first validation error raised by the `for topic in topics` loop. -/
def firstTopicErr : List TopicArg → Option PyErr
  | [] => none
  | t :: ts =>
    match validateTopic t with
    | some e => some e
    | none => firstTopicErr ts

namespace Repo

/-- Embedding of `Repo.repo_topics_replace` (github.py lines 856-865): the
validation loop runs first; only if every topic passes is the PUT request
(returned as (verb, query, names payload)) issued. -/
def repo_topics_replace (topics : List TopicArg) :
    Except PyErr (String × String × List TopicArg) :=
  match firstTopicErr topics with
  | some e => Except.error e
  | none => Except.ok ("PUT", "topics", topics)

/-- Embedding of `Repo._validate_label_data` (github.py lines 1349-1365) for
string-typed arguments (the `isinstance(..., str)` loop never fires then):
a non-empty color failing the hex pattern, then a description longer than
100 characters, each raise `ValueError`. -/
def validate_label_data (color description : String) : Option PyErr :=
  if color ≠ "" ∧ colorMatch color = false then some PyErr.valueError
  else if 100 < description.length then some PyErr.valueError
  else none

/-- Embedding of `Repo.label_create` (github.py lines 958-965): validation
runs first; only if it passes is the POST request (returned as
(verb, query, payload)) issued, with the truthy optional fields included. -/
def label_create (name color description : String) :
    Except PyErr (String × String × List (String × String)) :=
  match validate_label_data color description with
  | some e => Except.error e
  | none =>
    Except.ok ("POST", "labels",
      [("name", name)]
        ++ (if color ≠ "" then [("color", color)] else [])
        ++ (if description ≠ "" then [("description", description)] else []))

end Repo

theorem firstTopicErr_isSome {topics : List TopicArg} {t : TopicArg}
    (hmem : t ∈ topics) (hbad : (validateTopic t).isSome) :
    (firstTopicErr topics).isSome := by
  induction topics with
  | nil => cases hmem
  | cons t' ts ih =>
    rcases List.mem_cons.mp hmem with rfl | hts
    · cases hv : validateTopic t with
      | none => rw [hv] at hbad; cases hbad
      | some e => simp [firstTopicErr, hv]
    · cases hv : validateTopic t' with
      | none => simpa [firstTopicErr, hv] using ih hts
      | some e => simp [firstTopicErr, hv]

/-- C3: an invalid topic passed to `Repo.repo_topics_replace` (a non-string,
a string longer than 50 characters, or one failing the topic pattern), and
an invalid `Repo.label_create` argument (a non-empty color failing the hex
pattern, or a description longer than 100 characters), each raise a
`TypeError`/`ValueError` before any network request is issued (the operation
produces no request value). -/
theorem c3_validation_before_request :
    (∀ (topics : List TopicArg) (t : TopicArg), t ∈ topics →
      (t = TopicArg.nonStr ∨
        ∃ s, t = TopicArg.str s ∧ (50 < s.length ∨ topicMatch s = false)) →
      ∃ e, Repo.repo_topics_replace topics = Except.error e) ∧
    (∀ name color description, color ≠ "" → colorMatch color = false →
      ∃ e, Repo.label_create name color description = Except.error e) ∧
    (∀ name color description, 100 < description.length →
      ∃ e, Repo.label_create name color description = Except.error e) := by
  refine ⟨?_, ?_, ?_⟩
  · intro topics t hmem hbad
    have hv : (validateTopic t).isSome := by
      rcases hbad with rfl | ⟨s, rfl, hlen | hpat⟩
      · simp [validateTopic]
      · simp [validateTopic, hlen]
      · by_cases hlen : 50 < s.length <;> simp [validateTopic, hlen, hpat]
    have := firstTopicErr_isSome hmem hv
    obtain ⟨e, he⟩ := Option.isSome_iff_exists.mp this
    exact ⟨e, by simp [Repo.repo_topics_replace, he]⟩
  · intro name color description hne hfail
    refine ⟨PyErr.valueError, ?_⟩
    simp [Repo.label_create, Repo.validate_label_data, hne, hfail]
  · intro name color description hlong
    by_cases hc : color ≠ "" ∧ colorMatch color = false <;>
      simp [Repo.label_create, Repo.validate_label_data, hc, hlong]

/-- Witness for C3: the topic `"Bad_Topic"` (fails the pattern), the color
`"zzz"` (fails the hex pattern) and a 101-character description each make
the operation fail before producing a request. -/
theorem c3_validation_before_request_witness :
    (∃ e, Repo.repo_topics_replace [TopicArg.str "Bad_Topic"]
      = Except.error e) ∧
    (∃ e, Repo.label_create "bug" "zzz" "" = Except.error e) ∧
    (∃ e, Repo.label_create "bug" ""
      (String.mk (List.replicate 101 'a')) = Except.error e) := by
  refine ⟨c3_validation_before_request.1 [TopicArg.str "Bad_Topic"]
      (TopicArg.str "Bad_Topic") (by simp)
      (Or.inr ⟨"Bad_Topic", rfl, Or.inr (by decide)⟩),
    c3_validation_before_request.2.1 "bug" "zzz" "" (by decide) (by decide),
    c3_validation_before_request.2.2 "bug" ""
      (String.mk (List.replicate 101 'a')) (by decide)⟩

/-- The code-point ranges of Unicode general category Nd (decimal digits),
from the Unicode 15.1 tables shipped with CPython 3.12/3.13: ASCII `0-9`
plus the decimal digits of every other script (Arabic-Indic, Devanagari,
..., the mathematical digit styles `1D7CE..1D7FF`, and the segmented digits
`1FBF0..1FBF9`). -/
def pyNdRanges : List (Nat × Nat) :=
  [(0x30, 0x39), (0x660, 0x669), (0x6f0, 0x6f9), (0x7c0, 0x7c9),
   (0x966, 0x96f), (0x9e6, 0x9ef), (0xa66, 0xa6f), (0xae6, 0xaef),
   (0xb66, 0xb6f), (0xbe6, 0xbef), (0xc66, 0xc6f), (0xce6, 0xcef),
   (0xd66, 0xd6f), (0xde6, 0xdef), (0xe50, 0xe59), (0xed0, 0xed9),
   (0xf20, 0xf29), (0x1040, 0x1049), (0x1090, 0x1099), (0x17e0, 0x17e9),
   (0x1810, 0x1819), (0x1946, 0x194f), (0x19d0, 0x19d9), (0x1a80, 0x1a89),
   (0x1a90, 0x1a99), (0x1b50, 0x1b59), (0x1bb0, 0x1bb9), (0x1c40, 0x1c49),
   (0x1c50, 0x1c59), (0xa620, 0xa629), (0xa8d0, 0xa8d9), (0xa900, 0xa909),
   (0xa9d0, 0xa9d9), (0xa9f0, 0xa9f9), (0xaa50, 0xaa59), (0xabf0, 0xabf9),
   (0xff10, 0xff19), (0x104a0, 0x104a9), (0x10d30, 0x10d39),
   (0x11066, 0x1106f), (0x110f0, 0x110f9), (0x11136, 0x1113f),
   (0x111d0, 0x111d9), (0x112f0, 0x112f9), (0x11450, 0x11459),
   (0x114d0, 0x114d9), (0x11650, 0x11659), (0x116c0, 0x116c9),
   (0x11730, 0x11739), (0x118e0, 0x118e9), (0x11950, 0x11959),
   (0x11c50, 0x11c59), (0x11d50, 0x11d59), (0x11da0, 0x11da9),
   (0x11f50, 0x11f59), (0x16a60, 0x16a69), (0x16ac0, 0x16ac9),
   (0x16b50, 0x16b59), (0x1d7ce, 0x1d7ff), (0x1e140, 0x1e149),
   (0x1e2f0, 0x1e2f9), (0x1e4f0, 0x1e4f9), (0x1e950, 0x1e959),
   (0x1fbf0, 0x1fbf9)]

/-- Python `\d` for `str` patterns: any character of Unicode general
category Nd (decimal digit), per the Unicode 15.1 tables of CPython
3.12/3.13 (older interpreters ship slightly smaller Nd tables, e.g. without
the Kawi digits added in Unicode 15.0). -/
def pyDigit (c : Char) : Bool :=
  pyNdRanges.any (fun r => decide (r.1 ≤ c.toNat) && decide (c.toNat ≤ r.2))

/-- The code points of CPython's `Py_UNICODE_ISSPACE` (equivalently,
single characters on which `str.isspace()` is true): the set Python's
`\s`/`\S` use for `str` patterns.  It is Unicode categories Zs, Zl, Zp plus
the bidirectional-whitespace controls, and has been stable across the
Unicode versions of every Python able to run this code. -/
def pyWhitespaceCodes : List Nat :=
  [0x09, 0x0a, 0x0b, 0x0c, 0x0d, 0x1c, 0x1d, 0x1e, 0x1f, 0x20, 0x85, 0xa0,
   0x1680, 0x2000, 0x2001, 0x2002, 0x2003, 0x2004, 0x2005, 0x2006, 0x2007,
   0x2008, 0x2009, 0x200a, 0x2028, 0x2029, 0x202f, 0x205f, 0x3000]

/-- Python whitespace for `\s`/`\S` on `str` patterns. -/
def pySpace (c : Char) : Bool :=
  pyWhitespaceCodes.contains c.toNat

/-- Strip a literal prefix from a character list; `none` when the list does
not start with it. -/
def stripPre : List Char → List Char → Option (List Char)
  | [], s => some s
  | _ :: _, [] => none
  | p :: ps, c :: cs => if p = c then stripPre ps cs else none

/-- Semantics of an optional literal group `(?:lit)?` at the current
position: consume the literal if present, otherwise leave the input
unchanged (for the literals of the DOI pattern consuming is never worse,
since no later alternative can match the consumed characters). -/
def tryStrip (pre s : List Char) : List Char :=
  (stripPre pre s).getD s

def httpL : List Char := ['h', 't', 't', 'p', ':', '/', '/']

def httpsL : List Char := ['h', 't', 't', 'p', 's', ':', '/', '/']

def dxL : List Char := ['d', 'x', '.']

def doiOrgL : List Char := ['d', 'o', 'i', '.', 'o', 'r', 'g', '/']

def doiUrlPre : List Char :=
  ['h', 't', 't', 'p', 's', ':', '/', '/', 'd', 'o', 'i', '.', 'o', 'r',
   'g', '/']

/-- Semantics of the optional scheme group `(?:https?://)?`. -/
def stripScheme (s : List Char) : List Char :=
  match stripPre httpsL s with
  | some r => r
  | none => tryStrip httpL s

/-- Semantics of the capture group `(10\.\d+/\S+)` matched at the current
position: returns the matched (greedy) group, or `none` when it does not
match here. -/
def matchIdent (s : List Char) : Option (List Char) :=
  match s with
  | c1 :: c2 :: c3 :: rest =>
    let ds := rest.takeWhile pyDigit
    let r1 := rest.dropWhile pyDigit
    if c1 = '1' ∧ c2 = '0' ∧ c3 = '.' ∧ ds ≠ [] ∧ r1.head? = some '/' then
      let ss := r1.tail.takeWhile (fun x => !pySpace x)
      if ss = [] then none
      else some ('1' :: '0' :: '.' :: (ds ++ '/' :: ss))
    else none
  | _ => none

/-- Semantics of
`re.match(r"(?:https?://)?(?:dx\.)?(?:doi\.org/)?(10\.\d+/\S+)", doi)`
(doi.py line 34): the captured group, or `none` when there is no match at
the start of the string. -/
def doiMatch (s : List Char) : Option (List Char) :=
  matchIdent (tryStrip doiOrgL (tryStrip dxL (stripScheme s)))

namespace DOI

/-- Embedding of `DOI.__init__` (doi.py lines 21-39): on a match the object
is constructed with `self.doi` the captured identifier and `self.url` the
identifier prefixed by `https://doi.org/`; otherwise
`ValueError(f"Invalid DOI: {doi}")` is raised.  The constructor performs no
network request (faithfully, the embedding is a pure function). -/
def init (s : List Char) : Except PyErr (List Char × List Char) :=
  match doiMatch s with
  | none => Except.error PyErr.valueError
  | some g => Except.ok (g, doiUrlPre ++ g)

end DOI

theorem stripPre_self_append (l r : List Char) : stripPre l (l ++ r) = some r := by
  induction l with
  | nil => rfl
  | cons c cs ih => simp [stripPre, ih]

theorem stripPre_some {pre s r : List Char} (h : stripPre pre s = some r) :
    s = pre ++ r := by
  induction pre generalizing s with
  | nil =>
    simp only [stripPre, Option.some.injEq] at h
    simp [h]
  | cons p ps ih =>
    cases s with
    | nil => simp [stripPre] at h
    | cons c cs =>
      simp only [stripPre] at h
      by_cases hpc : p = c
      · rw [if_pos hpc] at h
        subst hpc
        simp [ih h]
      · rw [if_neg hpc] at h
        cases h

theorem tryStrip_cases (pre s : List Char) :
    tryStrip pre s = s ∨ s = pre ++ tryStrip pre s := by
  unfold tryStrip
  cases h : stripPre pre s with
  | none => left; rfl
  | some r => right; simpa using stripPre_some h

theorem stripScheme_cases (s : List Char) :
    stripScheme s = s ∨ s = httpsL ++ stripScheme s ∨
      s = httpL ++ stripScheme s := by
  unfold stripScheme
  cases h : stripPre httpsL s with
  | some r => right; left; simpa using stripPre_some h
  | none =>
    rcases tryStrip_cases httpL s with h2 | h2
    · left; exact h2
    · right; right; exact h2

theorem takeWhile_all_self {p : Char → Bool} {l : List Char}
    (h : l.all p = true) : l.takeWhile p = l :=
  List.takeWhile_eq_self_iff.mpr (by simpa [List.all_eq_true] using h)

theorem takeWhile_append_sep (p : Char → Bool) (l : List Char) (c : Char)
    (r : List Char) (hl : l.all p = true) (hc : p c = false) :
    (l ++ c :: r).takeWhile p = l ∧ (l ++ c :: r).dropWhile p = c :: r := by
  induction l with
  | nil => simp [List.takeWhile_cons, List.dropWhile_cons, hc]
  | cons a as ih =>
    simp only [List.all_cons, Bool.and_eq_true] at hl
    have := ih hl.2
    simp [List.takeWhile_cons, List.dropWhile_cons, hl.1, this.1, this.2]

theorem matchIdent_ok {ds ss : List Char} (hds : ds ≠ [])
    (hdsall : ds.all pyDigit = true) (hss : ss ≠ [])
    (hssall : ss.all (fun c => !pySpace c) = true) :
    matchIdent ('1' :: '0' :: '.' :: (ds ++ '/' :: ss)) =
      some ('1' :: '0' :: '.' :: (ds ++ '/' :: ss)) := by
  have hsep := takeWhile_append_sep pyDigit ds '/' ss hdsall (by decide)
  simp [matchIdent, hsep.1, hsep.2, hds, hss, takeWhile_all_self hssall]

theorem matchIdent_some {s g : List Char} (h : matchIdent s = some g) :
    ∃ ds ss rest,
      s = '1' :: '0' :: '.' :: (ds ++ '/' :: (ss ++ rest)) ∧
      g = '1' :: '0' :: '.' :: (ds ++ '/' :: ss) ∧
      ds ≠ [] ∧ ds.all pyDigit = true ∧
      ss ≠ [] ∧ ss.all (fun c => !pySpace c) = true := by
  rcases s with _ | ⟨c1, s1⟩
  · simp [matchIdent] at h
  rcases s1 with _ | ⟨c2, s2⟩
  · simp [matchIdent] at h
  rcases s2 with _ | ⟨c3, rest⟩
  · simp [matchIdent] at h
  simp only [matchIdent] at h
  by_cases hcond : c1 = '1' ∧ c2 = '0' ∧ c3 = '.' ∧
      rest.takeWhile pyDigit ≠ [] ∧
      (rest.dropWhile pyDigit).head? = some '/'
  · rw [if_pos hcond] at h
    by_cases hssnil :
        (rest.dropWhile pyDigit).tail.takeWhile (fun x => !pySpace x) = []
    · rw [if_pos hssnil] at h
      cases h
    · rw [if_neg hssnil] at h
      obtain ⟨rfl, rfl, rfl, hds, hhead⟩ := hcond
      cases hr1 : rest.dropWhile pyDigit with
      | nil => rw [hr1] at hhead; cases hhead
      | cons a r2 =>
        rw [hr1] at hhead
        simp only [List.head?_cons, Option.some.injEq] at hhead
        subst hhead
        rw [hr1] at h hssnil
        simp only [List.tail_cons, Option.some.injEq] at h
        refine ⟨rest.takeWhile pyDigit, r2.takeWhile (fun x => !pySpace x),
          r2.dropWhile (fun x => !pySpace x), ?_, h.symm, hds,
          List.all_takeWhile, hssnil, List.all_takeWhile⟩
        have h1 : rest.takeWhile pyDigit ++ rest.dropWhile pyDigit = rest :=
          List.takeWhile_append_dropWhile pyDigit rest
        have h2 : r2.takeWhile (fun x => !pySpace x)
            ++ r2.dropWhile (fun x => !pySpace x) = r2 :=
          List.takeWhile_append_dropWhile (fun x => !pySpace x) r2
        rw [hr1] at h1
        simp only [List.cons.injEq, true_and]
        rw [h2]
        exact h1.symm
  · rw [if_neg hcond] at h
    cases h

theorem doiMatch_strip (p d o rest : List Char)
    (hp : p = [] ∨ p = httpL ∨ p = httpsL) (hd : d = [] ∨ d = dxL)
    (ho : o = [] ∨ o = doiOrgL) (hrest : rest.head? = some '1') :
    doiMatch (p ++ d ++ o ++ rest) = matchIdent rest := by
  rcases rest with _ | ⟨c, t⟩
  · cases hrest
  simp only [List.head?_cons, Option.some.injEq] at hrest
  subst hrest
  rcases hp with rfl | rfl | rfl <;> rcases hd with rfl | rfl <;>
    rcases ho with rfl | rfl <;> rfl

/-- C9: `DOI.__init__` succeeds, with `self.doi` the bare identifier and
`self.url` equal to `"https://doi.org/" + self.doi`, exactly on the strings
consisting of an optional `http://` or `https://`, an optional `dx.`, an
optional `doi.org/`, and then a bare identifier `10.` + digits + `/` +
non-whitespace; on every string that does not start with such a prefix it
raises `ValueError` (and, the constructor being pure, no network request is
issued either way). -/
theorem c9_doi_init_parse :
    (∀ (p d o ds ss : List Char),
      (p = [] ∨ p = httpL ∨ p = httpsL) → (d = [] ∨ d = dxL) →
      (o = [] ∨ o = doiOrgL) →
      ds ≠ [] → ds.all pyDigit = true →
      ss ≠ [] → ss.all (fun c => !pySpace c) = true →
      DOI.init (p ++ d ++ o ++ ('1' :: '0' :: '.' :: (ds ++ '/' :: ss))) =
        Except.ok ('1' :: '0' :: '.' :: (ds ++ '/' :: ss),
          doiUrlPre ++ ('1' :: '0' :: '.' :: (ds ++ '/' :: ss)))) ∧
    (∀ s : List Char,
      (¬ ∃ (p d o ds ss rest : List Char),
        (p = [] ∨ p = httpL ∨ p = httpsL) ∧ (d = [] ∨ d = dxL) ∧
        (o = [] ∨ o = doiOrgL) ∧
        ds ≠ [] ∧ ds.all pyDigit = true ∧
        ss ≠ [] ∧ ss.all (fun c => !pySpace c) = true ∧
        s = p ++ d ++ o ++ ('1' :: '0' :: '.' :: (ds ++ '/' :: (ss ++ rest)))) →
      DOI.init s = Except.error PyErr.valueError) := by
  constructor
  · intro p d o ds ss hp hd ho hds hdsall hss hssall
    have hm := doiMatch_strip p d o ('1' :: '0' :: '.' :: (ds ++ '/' :: ss))
      hp hd ho rfl
    simp only [DOI.init, hm, matchIdent_ok hds hdsall hss hssall]
  · intro s hnot
    cases h : doiMatch s with
    | none => simp [DOI.init, h]
    | some g =>
      exfalso
      apply hnot
      have hgen : ∀ (pre t : List Char),
          ∃ d, (d = [] ∨ d = pre) ∧ t = d ++ tryStrip pre t := by
        intro pre t
        rcases tryStrip_cases pre t with h2 | h2
        · exact ⟨[], Or.inl rfl, by simpa using h2.symm⟩
        · exact ⟨pre, Or.inr rfl, h2⟩
      have hP : ∃ p, (p = [] ∨ p = httpL ∨ p = httpsL) ∧
          s = p ++ stripScheme s := by
        rcases stripScheme_cases s with h1 | h1 | h1
        · exact ⟨[], Or.inl rfl, by simpa using h1.symm⟩
        · exact ⟨httpsL, Or.inr (Or.inr rfl), h1⟩
        · exact ⟨httpL, Or.inr (Or.inl rfl), h1⟩
      obtain ⟨p, hpOr, hpEq⟩ := hP
      obtain ⟨d, hdOr, hdEq⟩ := hgen dxL (stripScheme s)
      obtain ⟨o, hoOr, hoEq⟩ := hgen doiOrgL (tryStrip dxL (stripScheme s))
      unfold doiMatch at h
      obtain ⟨ds, ss, rest2, hdec, _hg, hds, hdsall, hss, hssall⟩ :=
        matchIdent_some h
      refine ⟨p, d, o, ds, ss, rest2, hpOr, hdOr, hoOr, hds, hdsall, hss,
        hssall, ?_⟩
      rw [hdec] at hoEq
      rw [hoEq] at hdEq
      rw [hdEq] at hpEq
      rw [hpEq]
      simp [List.append_assoc]

/-- Witness for C9: the concrete inputs `"https://doi.org/10.1234/abc"`
(succeeds with the bare identifier and reconstructed URL) and the empty
string (raises `ValueError`). -/
theorem c9_doi_init_parse_witness :
    DOI.init (httpsL ++ doiOrgL ++
        ('1' :: '0' :: '.' :: (['1', '2', '3', '4'] ++ '/' :: ['a', 'b', 'c'])))
      = Except.ok
        ('1' :: '0' :: '.' :: (['1', '2', '3', '4'] ++ '/' :: ['a', 'b', 'c']),
         doiUrlPre ++
           ('1' :: '0' :: '.' ::
             (['1', '2', '3', '4'] ++ '/' :: ['a', 'b', 'c']))) ∧
    DOI.init [] = Except.error PyErr.valueError := by
  constructor
  · have := c9_doi_init_parse.1 httpsL [] doiOrgL ['1', '2', '3', '4']
      ['a', 'b', 'c'] (Or.inr (Or.inr rfl)) (Or.inl rfl) (Or.inr rfl)
      (by decide) (by decide) (by decide) (by decide)
    simpa using this
  · refine c9_doi_init_parse.2 [] ?_
    rintro ⟨p, d, o, ds, ss, rest, hp, hd, ho, hds, _, hss, _, heq⟩
    have hlen := congrArg List.length heq
    simp [List.length_append] at hlen
    have hds1 : 1 ≤ ds.length := List.length_pos.mpr hds
    have hss1 : 1 ≤ ss.length := List.length_pos.mpr hss
    omega

end PyLinks
